import Mathlib

/-!
Verification of the scoring-and-persistence core of the DMA mini survey
application (src/dma_survey.py and src/pages/analytics.py).

The embedding models:
 - the scoring computation inlined in `submit_dma_survey` (lines 63-75);
 - the SQLite table `dma_survey_results` as a list of rows plus bookkeeping
   (next AUTOINCREMENT id, a strictly increasing clock standing for
   CURRENT_TIMESTAMP, reachability of the remote store);
 - `create_dma_survey_table` (CREATE TABLE IF NOT EXISTS, lines 28-55);
 - `submit_dma_survey` (lines 58-114): the store-side NOT NULL and
   BETWEEN 1 AND 5 CHECK constraints decide success; on any failure the
   transaction is rolled back and `(None, None, None)` is returned;
 - `get_dma_survey_analytics` (lines 120-197, duplicated verbatim in
   src/pages/analytics.py lines 74-151): the three aggregate queries and
   the exception-handling default;
 - the submit-click handler of `show_survey_form` (lines 514-539).

Python `None`-able string arguments are `Option String`; SQL aggregate
results over an empty table are `none` (SQL NULL).  Python's
`round(x, 2)` on floats is modelled as exact rational rounding
(half-to-even) at two decimals; no claim depends on the rounding mode.
Rows are kept newest-first in the model list; every read that the code
orders sorts explicitly by `created_at`.
-/

namespace DMASurvey

/-- The five question ratings, the `scores` dict of the Python code. -/
structure Scores where
  q1 : Int
  q2 : Int
  q3 : Int
  q4 : Int
  q5 : Int
deriving DecidableEq

/-- Line 63: `total_score = sum(scores.values())`. -/
def totalScore (s : Scores) : Int :=
  s.q1 + s.q2 + s.q3 + s.q4 + s.q5

/-- Lines 66-75: the maturity-level if-chain of `submit_dma_survey`. -/
def maturityLevel (total : Int) : String :=
  if total ≤ 5 then "Beginner Level"
  else if total ≤ 10 then "Emerging Level"
  else if total ≤ 15 then "Progressing Level"
  else if total ≤ 20 then "Advanced Level"
  else "Expert Level"

/-- One row of the `dma_survey_results` table (schema lines 33-48). -/
structure Row where
  survey_id : Nat
  name : String
  organisation : String
  address : String
  email : String
  contact_number : String
  q1 : Int
  q2 : Int
  q3 : Int
  q4 : Int
  q5 : Int
  total_score : Int
  maturity_level : String
  created_at : Nat
deriving DecidableEq

/-- The backing store.  `reachable` models availability of the remote
libsql database (the source of the exceptions every function catches);
`tableExists` tracks CREATE TABLE IF NOT EXISTS; `rows` holds the table
newest-first; `nextId` is the AUTOINCREMENT counter; `clock` is the
value CURRENT_TIMESTAMP would stamp on the next insert. -/
structure DB where
  reachable : Bool
  tableExists : Bool
  rows : List Row
  nextId : Nat
  clock : Nat
deriving DecidableEq

/-- Lines 28-55, `create_dma_survey_table`: CREATE TABLE IF NOT EXISTS,
returning True on success and False (after `st.error`) on exception. -/
def create_dma_survey_table (db : DB) : Bool × DB :=
  if db.reachable then
    (true, { db with tableExists := true })
  else
    (false, db)

/-- The CHECK(question_i_score BETWEEN 1 AND 5) constraint of the schema. -/
def scoreInRange (x : Int) : Bool :=
  decide (1 ≤ x) && decide (x ≤ 5)

/-- All five CHECK constraints of the schema (lines 40-44). -/
def scoresInRange (s : Scores) : Bool :=
  scoreInRange s.q1 && scoreInRange s.q2 && scoreInRange s.q3 &&
    scoreInRange s.q4 && scoreInRange s.q5

/-- Lines 58-114, `submit_dma_survey`.  The total and level are computed
from the scores (lines 63-75); address, email and contact_number are
coalesced to `""` when falsy (lines 87-89) while `name` and
`organisation` are passed through; the INSERT succeeds exactly when the
store is reachable, the table exists, the NOT NULL columns are present
and every score passes its CHECK constraint, in which case the new row
is committed; on any exception the transaction is rolled back and
`(None, None, None)` is returned (lines 111-114). -/
def submit_dma_survey (nameArg organisationArg addressArg emailArg contactArg :
    Option String) (scores : Scores) (db : DB) :
    (Option Nat × Option Int × Option String) × DB :=
  let total := totalScore scores
  let level := maturityLevel total
  let addressVal := addressArg.getD ""
  let emailVal := emailArg.getD ""
  let contactVal := contactArg.getD ""
  match nameArg, organisationArg with
  | some nameVal, some organisationVal =>
    if db.reachable && db.tableExists && scoresInRange scores then
      let row : Row :=
        { survey_id := db.nextId
          name := nameVal
          organisation := organisationVal
          address := addressVal
          email := emailVal
          contact_number := contactVal
          q1 := scores.q1
          q2 := scores.q2
          q3 := scores.q3
          q4 := scores.q4
          q5 := scores.q5
          total_score := total
          maturity_level := level
          created_at := db.clock }
      ((some db.nextId, some total, some level),
        { db with rows := row :: db.rows, nextId := db.nextId + 1,
                  clock := db.clock + 1 })
    else ((none, none, none), db)
  | _, _ => ((none, none, none), db)

/-- A convenient concrete store: reachable, table created, no rows yet. -/
def db0 : DB :=
  { reachable := true, tableExists := true, rows := [], nextId := 1, clock := 0 }

/-- SQL AVG over a column: NULL on an empty table, else the exact mean. -/
def sqlAvg (xs : List Int) : Option Rat :=
  match xs with
  | [] => none
  | _ => some (((xs.foldl (· + ·) 0 : Int) : Rat) / (xs.length : Rat))

/-- SQL MIN over a column: NULL on an empty table. -/
def sqlMin (xs : List Int) : Option Int :=
  match xs with
  | [] => none
  | x :: rest => some (rest.foldl min x)

/-- SQL MAX over a column: NULL on an empty table. -/
def sqlMax (xs : List Int) : Option Int :=
  match xs with
  | [] => none
  | x :: rest => some (rest.foldl max x)

/-- Python `round(x, 2)` modelled exactly on rationals, half to even. -/
def round2 (q : Rat) : Rat :=
  let s : Rat := q * 100
  let f : Int := ⌊s⌋
  let frac : Rat := s - (f : Rat)
  let n : Int :=
    if frac < 1 / 2 then f
    else if 1 / 2 < frac then f + 1
    else if f % 2 = 0 then f else f + 1
  (n : Rat) / 100

/-- Python `round(v, 2) if v else 0` on a nullable average: 0 when the
value is NULL (or the falsy 0.0), else the rounded value. -/
def pyRoundOrZero (o : Option Rat) : Rat :=
  match o with
  | none => 0
  | some a => if a = 0 then 0 else round2 a

/-- The `maturity_level` column of every row, in table order. -/
def rowLevels (rows : List Row) : List String :=
  rows.map (fun r => r.maturity_level)

/-- COUNT(*) of the rows in one GROUP BY maturity_level group. -/
def levelCount (rows : List Row) (l : String) : Nat :=
  (rows.filter (fun r => r.maturity_level == l)).length

/-- ORDER BY COUNT(*) DESC as a relation on (level, count) pairs. -/
def countDescRel (a b : String × Nat) : Prop := b.2 ≤ a.2

instance : DecidableRel countDescRel := fun a b => Nat.decLe b.2 a.2

instance : IsTotal (String × Nat) countDescRel := ⟨fun a b => le_total b.2 a.2⟩

instance : IsTrans (String × Nat) countDescRel :=
  ⟨fun _ _ _ hab hbc => le_trans hbc hab⟩

/-- The maturity-level query (lines 141-147): one (level, count) pair per
distinct `maturity_level` present, ordered by count descending. -/
def maturityDistribution (rows : List Row) : List (String × Nat) :=
  List.insertionSort countDescRel
    ((rowLevels rows).dedup.map (fun l => (l, levelCount rows l)))

/-- ORDER BY created_at DESC as a relation on rows. -/
def newerRel (a b : Row) : Prop := b.created_at ≤ a.created_at

instance : DecidableRel newerRel := fun a b => Nat.decLe b.created_at a.created_at

instance : IsTotal Row newerRel := ⟨fun a b => le_total b.created_at a.created_at⟩

instance : IsTrans Row newerRel := ⟨fun _ _ _ hab hbc => le_trans hbc hab⟩

/-- One entry of the `recent_responses` list: the columns the SELECT of
lines 150-154 projects (note it includes `name`). -/
structure RespEntry where
  name : String
  organisation : String
  total_score : Int
  maturity_level : String
  created_at : Nat
deriving DecidableEq

/-- Projection of a row onto the columns of the all-responses SELECT. -/
def rowToEntry (r : Row) : RespEntry :=
  { name := r.name, organisation := r.organisation,
    total_score := r.total_score, maturity_level := r.maturity_level,
    created_at := r.created_at }

/-- The all-responses query (lines 150-155): every row, newest first. -/
def recentResponses (rows : List Row) : List RespEntry :=
  (List.insertionSort newerRel rows).map rowToEntry

/-- ORDER BY created_at DESC on the projected entries. -/
def entryNewerRel (a b : RespEntry) : Prop := b.created_at ≤ a.created_at

/-- The structure returned by `get_dma_survey_analytics`. -/
structure Analytics where
  total_responses : Nat
  avg_score : Rat
  min_score : Option Int
  max_score : Option Int
  question_averages : List (String × Rat)
  maturity_distribution : List (String × Nat)
  recent_responses : List RespEntry
deriving DecidableEq

/-- The dictionary built in the except branch (lines 187-197): note
`min_score` and `max_score` are the Python int 0 there, while the
success branch passes the raw nullable SQL MIN/MAX through. -/
def analyticsFailure : Analytics :=
  { total_responses := 0
    avg_score := 0
    min_score := some 0
    max_score := some 0
    question_averages := []
    maturity_distribution := []
    recent_responses := [] }

/-- Lines 120-197, `get_dma_survey_analytics` (the identical copy lives in
src/pages/analytics.py lines 74-151): on success the three queries are
packaged as written, with `avg_score` and the per-question averages run
through `round(v, 2) if v else 0` while `min_score`/`max_score` are
returned raw; on any exception the fixed default of `analyticsFailure`
is returned instead of propagating the error. -/
def get_dma_survey_analytics (db : DB) : Analytics :=
  if db.reachable && db.tableExists then
    { total_responses := db.rows.length
      avg_score := pyRoundOrZero (sqlAvg (db.rows.map (fun r => r.total_score)))
      min_score := sqlMin (db.rows.map (fun r => r.total_score))
      max_score := sqlMax (db.rows.map (fun r => r.total_score))
      question_averages :=
        [("q1", pyRoundOrZero (sqlAvg (db.rows.map (fun r => r.q1)))),
         ("q2", pyRoundOrZero (sqlAvg (db.rows.map (fun r => r.q2)))),
         ("q3", pyRoundOrZero (sqlAvg (db.rows.map (fun r => r.q3)))),
         ("q4", pyRoundOrZero (sqlAvg (db.rows.map (fun r => r.q4)))),
         ("q5", pyRoundOrZero (sqlAvg (db.rows.map (fun r => r.q5))))]
      maturity_distribution := maturityDistribution db.rows
      recent_responses := recentResponses db.rows }
  else analyticsFailure

/-- The per-question selections held in `st.session_state`
(`q{i}_selected` keys): none until the respondent clicks a rating. -/
structure Selections where
  s1 : Option Int
  s2 : Option Int
  s3 : Option Int
  s4 : Option Int
  s5 : Option Int
deriving DecidableEq

/-- What the submit-click handler reports back to the respondent. -/
inductive SubmitOutcome where
  | validationError (message : String)
  | dbError
  | success (survey_id : Nat) (total_score : Int) (maturity_level : String)
deriving DecidableEq

/-- Lines 514-550 of `show_survey_form`: on Submit, an empty organisation
blocks with an error; then any question without an explicit selection
blocks with an error listing it; only when all five are selected is
`submit_dma_survey("", organisation, "", "", "", final_scores)` called,
with `final_scores` built solely from the explicit selections. -/
def surveySubmitClick (organisation : String) (sel : Selections) (db : DB) :
    SubmitOutcome × DB :=
  if organisation = "" then
    (SubmitOutcome.validationError
      "Please fill in all required fields (Organisation)", db)
  else
    match sel.s1, sel.s2, sel.s3, sel.s4, sel.s5 with
    | some a, some b, some c, some d, some e =>
      let result := submit_dma_survey (some "") (some organisation)
        (some "") (some "") (some "") ⟨a, b, c, d, e⟩ db
      match result.1 with
      | (some id, some total, some level) =>
        (SubmitOutcome.success id total level, result.2)
      | _ => (SubmitOutcome.dbError, result.2)
    | _, _, _, _, _ =>
      (SubmitOutcome.validationError "Please answer all questions", db)

/-- The row invariant of the data model: `total_score` is the sum of the
five stored scores and `maturity_level` is the band containing it. -/
def rowInv (r : Row) : Prop :=
  r.total_score = r.q1 + r.q2 + r.q3 + r.q4 + r.q5 ∧
  r.maturity_level = maturityLevel r.total_score

/-- The listing as the spec words it: only the four columns
(organisation, total_score, maturity_level, created_at), newest first.
Written from the spec text for the refinement comparison with the
code's `recentResponses`, which also projects `name`. -/
def listResponsesSpec (rows : List Row) : List (String × Int × String × Nat) :=
  (List.insertionSort newerRel rows).map
    (fun r => (r.organisation, r.total_score, r.maturity_level, r.created_at))

/-- C1: for five integer ratings each in [1,5], the scoring computation
returns total = the sum of the ratings, the total lies in [5,25], the
maturity level is the band containing the total per the five-band table,
and the boundary totals 5, 6, 10, 11, 15, 16, 20, 21, 25 map to
Beginner, Emerging, Emerging, Progressing, Progressing, Advanced,
Advanced, Expert, Expert respectively. -/
theorem C1_scoring_bands (a b c d e : Int)
    (ha : 1 ≤ a ∧ a ≤ 5) (hb : 1 ≤ b ∧ b ≤ 5) (hc : 1 ≤ c ∧ c ≤ 5)
    (hd : 1 ≤ d ∧ d ≤ 5) (he : 1 ≤ e ∧ e ≤ 5) :
    totalScore ⟨a, b, c, d, e⟩ = a + b + c + d + e ∧
    (5 ≤ totalScore ⟨a, b, c, d, e⟩ ∧ totalScore ⟨a, b, c, d, e⟩ ≤ 25) ∧
    (a + b + c + d + e ≤ 5 →
      maturityLevel (a + b + c + d + e) = "Beginner Level") ∧
    (6 ≤ a + b + c + d + e ∧ a + b + c + d + e ≤ 10 →
      maturityLevel (a + b + c + d + e) = "Emerging Level") ∧
    (11 ≤ a + b + c + d + e ∧ a + b + c + d + e ≤ 15 →
      maturityLevel (a + b + c + d + e) = "Progressing Level") ∧
    (16 ≤ a + b + c + d + e ∧ a + b + c + d + e ≤ 20 →
      maturityLevel (a + b + c + d + e) = "Advanced Level") ∧
    (21 ≤ a + b + c + d + e ∧ a + b + c + d + e ≤ 25 →
      maturityLevel (a + b + c + d + e) = "Expert Level") ∧
    maturityLevel 5 = "Beginner Level" ∧ maturityLevel 6 = "Emerging Level" ∧
    maturityLevel 10 = "Emerging Level" ∧
    maturityLevel 11 = "Progressing Level" ∧
    maturityLevel 15 = "Progressing Level" ∧
    maturityLevel 16 = "Advanced Level" ∧
    maturityLevel 20 = "Advanced Level" ∧
    maturityLevel 21 = "Expert Level" ∧
    maturityLevel 25 = "Expert Level" := by
  refine ⟨rfl, ⟨?_, ?_⟩, ?_, ?_, ?_, ?_, ?_,
    by decide, by decide, by decide, by decide, by decide, by decide,
    by decide, by decide, by decide⟩
  · simp only [totalScore]; omega
  · simp only [totalScore]; omega
  all_goals
    intro h
    unfold maturityLevel
    split_ifs <;> first | rfl | omega

/-- Witness for C1 at the concrete ratings (2, 3, 4, 5, 1). -/
theorem C1_scoring_bands_witness :
    ((1 ≤ (2 : Int) ∧ (2 : Int) ≤ 5) ∧ (1 ≤ (3 : Int) ∧ (3 : Int) ≤ 5) ∧
     (1 ≤ (4 : Int) ∧ (4 : Int) ≤ 5) ∧ (1 ≤ (5 : Int) ∧ (5 : Int) ≤ 5) ∧
     (1 ≤ (1 : Int) ∧ (1 : Int) ≤ 5)) ∧
    (totalScore ⟨2, 3, 4, 5, 1⟩ = 2 + 3 + 4 + 5 + 1 ∧
     (5 ≤ totalScore ⟨2, 3, 4, 5, 1⟩ ∧ totalScore ⟨2, 3, 4, 5, 1⟩ ≤ 25) ∧
     ((2 : Int) + 3 + 4 + 5 + 1 ≤ 5 →
       maturityLevel (2 + 3 + 4 + 5 + 1) = "Beginner Level") ∧
     (6 ≤ (2 : Int) + 3 + 4 + 5 + 1 ∧ (2 : Int) + 3 + 4 + 5 + 1 ≤ 10 →
       maturityLevel (2 + 3 + 4 + 5 + 1) = "Emerging Level") ∧
     (11 ≤ (2 : Int) + 3 + 4 + 5 + 1 ∧ (2 : Int) + 3 + 4 + 5 + 1 ≤ 15 →
       maturityLevel (2 + 3 + 4 + 5 + 1) = "Progressing Level") ∧
     (16 ≤ (2 : Int) + 3 + 4 + 5 + 1 ∧ (2 : Int) + 3 + 4 + 5 + 1 ≤ 20 →
       maturityLevel (2 + 3 + 4 + 5 + 1) = "Advanced Level") ∧
     (21 ≤ (2 : Int) + 3 + 4 + 5 + 1 ∧ (2 : Int) + 3 + 4 + 5 + 1 ≤ 25 →
       maturityLevel (2 + 3 + 4 + 5 + 1) = "Expert Level") ∧
     maturityLevel 5 = "Beginner Level" ∧ maturityLevel 6 = "Emerging Level" ∧
     maturityLevel 10 = "Emerging Level" ∧
     maturityLevel 11 = "Progressing Level" ∧
     maturityLevel 15 = "Progressing Level" ∧
     maturityLevel 16 = "Advanced Level" ∧
     maturityLevel 20 = "Advanced Level" ∧
     maturityLevel 21 = "Expert Level" ∧
     maturityLevel 25 = "Expert Level") :=
  ⟨by decide,
   C1_scoring_bands 2 3 4 5 1 (by decide) (by decide) (by decide)
     (by decide) (by decide)⟩

/-- C2: the insert recomputes both derived values from the scores at
write time, so if every existing row satisfies the invariant
(total_score = sum of the five scores, maturity_level = band of the
total), then every row after an insert attempt still does; and table
creation never touches the rows, so no other operation mutates them. -/
theorem C2_row_invariant (nm org addr em ct : Option String) (s : Scores)
    (db : DB) (hInv : ∀ r ∈ db.rows, rowInv r) :
    (∀ r ∈ (submit_dma_survey nm org addr em ct s db).2.rows, rowInv r) ∧
    (create_dma_survey_table db).2.rows = db.rows := by
  constructor
  · unfold submit_dma_survey
    match nm, org with
    | none, _ => exact hInv
    | some n, none => exact hInv
    | some n, some o =>
      dsimp only
      split
      · intro r hr
        rcases List.mem_cons.mp hr with h | h
        · subst h
          exact ⟨rfl, rfl⟩
        · exact hInv r h
      · exact hInv
  · unfold create_dma_survey_table
    split <;> rfl

/-- Witness for C2 on the empty concrete store. -/
theorem C2_row_invariant_witness :
    (∀ r ∈ db0.rows, rowInv r) ∧
    ((∀ r ∈ (submit_dma_survey (some "N") (some "O") none none none
        ⟨1, 2, 3, 4, 5⟩ db0).2.rows, rowInv r) ∧
     (create_dma_survey_table db0).2.rows = db0.rows) :=
  ⟨by intro r hr; simp [db0] at hr,
   C2_row_invariant (some "N") (some "O") none none none ⟨1, 2, 3, 4, 5⟩ db0
     (by intro r hr; simp [db0] at hr)⟩

/-- C3: every insert attempt either fails returning the triple
(none, none, none) with the store left exactly as it was (all-or-nothing,
no partial row), or succeeds returning a triple of three `some` values
(distinguishable from failure) and adding exactly one row; and an attempt
with any rating equal to 0 or 6 is rejected by the range constraints,
leaving the row count unchanged. -/
theorem C3_failure_atomic (nm org addr em ct : Option String) (s : Scores)
    (db : DB) :
    (((submit_dma_survey nm org addr em ct s db).1 = (none, none, none) ∧
      (submit_dma_survey nm org addr em ct s db).2 = db) ∨
     ((∃ id t l, (submit_dma_survey nm org addr em ct s db).1 =
         (some id, some t, some l)) ∧
      (submit_dma_survey nm org addr em ct s db).2.rows.length =
        db.rows.length + 1)) ∧
    ((s.q1 = 0 ∨ s.q1 = 6 ∨ s.q2 = 0 ∨ s.q2 = 6 ∨ s.q3 = 0 ∨ s.q3 = 6 ∨
      s.q4 = 0 ∨ s.q4 = 6 ∨ s.q5 = 0 ∨ s.q5 = 6) →
      (submit_dma_survey nm org addr em ct s db).1 = (none, none, none) ∧
      (submit_dma_survey nm org addr em ct s db).2 = db) := by
  unfold submit_dma_survey
  match nm, org with
  | none, _ => exact ⟨Or.inl ⟨rfl, rfl⟩, fun _ => ⟨rfl, rfl⟩⟩
  | some n, none => exact ⟨Or.inl ⟨rfl, rfl⟩, fun _ => ⟨rfl, rfl⟩⟩
  | some n, some o =>
    dsimp only
    split
    · next hcond =>
      refine ⟨Or.inr ⟨⟨db.nextId, totalScore s, maturityLevel (totalScore s),
        rfl⟩, by simp⟩, ?_⟩
      intro hbad
      exfalso
      simp only [Bool.and_eq_true, scoresInRange, scoreInRange,
        decide_eq_true_eq] at hcond
      omega
    · exact ⟨Or.inl ⟨rfl, rfl⟩, fun _ => ⟨rfl, rfl⟩⟩

/-- Witness for C3: a rating of 0 is rejected with no row added. -/
theorem C3_failure_atomic_witness :
    (submit_dma_survey (some "N") (some "O") none none none
      ⟨0, 3, 3, 3, 3⟩ db0).1 = (none, none, none) ∧
    (submit_dma_survey (some "N") (some "O") none none none
      ⟨0, 3, 3, 3, 3⟩ db0).2 = db0 :=
  (C3_failure_atomic (some "N") (some "O") none none none
    ⟨0, 3, 3, 3, 3⟩ db0).2 (by decide)

/-- C8: table creation is idempotent (the second call returns exactly
what the first did and changes nothing more), never alters or truncates
existing rows, returns `false` exactly when the store is unreachable
(failure reported to the caller), and is a no-op when the table already
exists. -/
theorem C8_ensure_schema_idempotent (db : DB) :
    create_dma_survey_table (create_dma_survey_table db).2 =
      create_dma_survey_table db ∧
    (create_dma_survey_table db).2.rows = db.rows ∧
    (create_dma_survey_table db).1 = db.reachable ∧
    (db.tableExists = true → (create_dma_survey_table db).2 = db) := by
  refine ⟨?_, ?_, ?_, ?_⟩
  · by_cases h : db.reachable = true <;> simp [create_dma_survey_table, h]
  · by_cases h : db.reachable = true <;> simp [create_dma_survey_table, h]
  · by_cases h : db.reachable = true <;> simp [create_dma_survey_table, h]
  · intro ht
    by_cases h : db.reachable = true <;> cases db <;>
      simp_all [create_dma_survey_table]

/-- Witness for C8 on the concrete store whose table already exists. -/
theorem C8_ensure_schema_idempotent_witness :
    db0.tableExists = true ∧ (create_dma_survey_table db0).2 = db0 :=
  ⟨by decide, (C8_ensure_schema_idempotent db0).2.2.2 (by decide)⟩

/-- On a reachable store holding the table and no rows, the success
branch of the analytics read returns its zero/NULL defaults. -/
theorem analytics_empty_eval (db : DB)
    (h : db.rows = [] ∧ db.reachable = true ∧ db.tableExists = true) :
    get_dma_survey_analytics db =
      { total_responses := 0
        avg_score := 0
        min_score := none
        max_score := none
        question_averages :=
          [("q1", 0), ("q2", 0), ("q3", 0), ("q4", 0), ("q5", 0)]
        maturity_distribution := []
        recent_responses := [] } := by
  obtain ⟨h1, h2, h3⟩ := h
  simp [get_dma_survey_analytics, h1, h2, h3, sqlAvg, sqlMin, sqlMax,
    pyRoundOrZero, maturityDistribution, rowLevels, recentResponses]

/-- C4 counterexample: on the empty store the code returns `min_score`
and `max_score` as SQL NULL (none), not as a zero default, so the claim
that every non-count numeric field is a well-defined zero default fails
at the concrete empty store. -/
theorem C4_empty_minmax_counterexample :
    (get_dma_survey_analytics db0).min_score = none ∧
    (get_dma_survey_analytics db0).max_score = none ∧
    ¬((get_dma_survey_analytics db0).min_score = some 0 ∧
      (get_dma_survey_analytics db0).max_score = some 0) := by
  refine ⟨rfl, rfl, ?_⟩
  intro h
  exact Option.noConfusion (rfl.trans h.1)

/-- C4 amended: on an empty store the analytics read does not fail and
returns count 0 with every mean reported as the zero default, while
`min_score` and `max_score` are reported as SQL NULL (none) — a defined
null default rather than zero. -/
theorem C4_empty_store_defaults (db : DB)
    (h : db.rows = [] ∧ db.reachable = true ∧ db.tableExists = true) :
    get_dma_survey_analytics db =
      { total_responses := 0
        avg_score := 0
        min_score := none
        max_score := none
        question_averages :=
          [("q1", 0), ("q2", 0), ("q3", 0), ("q4", 0), ("q5", 0)]
        maturity_distribution := []
        recent_responses := [] } :=
  analytics_empty_eval db h

/-- Witness for C4 on the concrete empty store. -/
theorem C4_empty_store_defaults_witness :
    (db0.rows = [] ∧ db0.reachable = true ∧ db0.tableExists = true) ∧
    get_dma_survey_analytics db0 =
      { total_responses := 0
        avg_score := 0
        min_score := none
        max_score := none
        question_averages :=
          [("q1", 0), ("q2", 0), ("q3", 0), ("q4", 0), ("q5", 0)]
        maturity_distribution := []
        recent_responses := [] } :=
  ⟨by decide, C4_empty_store_defaults db0 (by decide)⟩

/-- C7: if the organisation field is empty or any of the five questions
has no explicitly chosen rating, the submit click is blocked with a
validation error and the store is left untouched (no insert is
attempted, so no implicit default rating of 1 is submitted). -/
theorem C7_validation_blocks (organisation : String) (sel : Selections)
    (db : DB)
    (h : organisation = "" ∨ sel.s1 = none ∨ sel.s2 = none ∨
      sel.s3 = none ∨ sel.s4 = none ∨ sel.s5 = none) :
    (∃ msg, (surveySubmitClick organisation sel db).1 =
      SubmitOutcome.validationError msg) ∧
    (surveySubmitClick organisation sel db).2 = db := by
  obtain ⟨s1, s2, s3, s4, s5⟩ := sel
  by_cases horg : organisation = ""
  · exact ⟨⟨"Please fill in all required fields (Organisation)",
      by simp [surveySubmitClick, horg]⟩, by simp [surveySubmitClick, horg]⟩
  · cases s1 <;> cases s2 <;> cases s3 <;> cases s4 <;> cases s5 <;>
      simp_all [surveySubmitClick]

/-- Witness for C7: an unanswered question blocks the submission. -/
theorem C7_validation_blocks_witness :
    ("Org" = "" ∨ (Selections.mk (some 3) none (some 3) (some 3) (some 3)).s1 = none ∨
      (Selections.mk (some 3) none (some 3) (some 3) (some 3)).s2 = none ∨
      (Selections.mk (some 3) none (some 3) (some 3) (some 3)).s3 = none ∨
      (Selections.mk (some 3) none (some 3) (some 3) (some 3)).s4 = none ∨
      (Selections.mk (some 3) none (some 3) (some 3) (some 3)).s5 = none) ∧
    ((∃ msg, (surveySubmitClick "Org"
        (Selections.mk (some 3) none (some 3) (some 3) (some 3)) db0).1 =
      SubmitOutcome.validationError msg) ∧
     (surveySubmitClick "Org"
        (Selections.mk (some 3) none (some 3) (some 3) (some 3)) db0).2 = db0) :=
  ⟨by simp,
   C7_validation_blocks "Org"
     (Selections.mk (some 3) none (some 3) (some 3) (some 3)) db0 (by simp)⟩

/-- C9 counterexample: an insert with `name` absent (None) does not store
the empty string for it — the NOT NULL constraint rejects the write, so
no row at all is produced, refuting the claim that `name` is stored as
the empty string when absent. -/
theorem C9_name_not_coalesced_counterexample :
    submit_dma_survey none (some "Org") none none none
      ⟨3, 3, 3, 3, 3⟩ db0 = ((none, none, none), db0) ∧
    (submit_dma_survey none (some "Org") none none none
      ⟨3, 3, 3, 3, 3⟩ db0).2.rows.map (fun r => r.name) ≠ [""] := by
  constructor
  · rfl
  · intro h
    exact List.noConfusion (rfl.trans h)

/-- C9 amended: address, email and contact_number are coalesced to the
empty string when absent (None), but `name` is passed through
unchanged: an insert attempt with `name = None` fails with no row, and
every newly stored row carries exactly the `name` value supplied (the
only caller supplies the empty string). -/
theorem C9_optional_fields (nmArg orgArg addr em ct : Option String)
    (s : Scores) (db : DB) :
    (nmArg = none →
      submit_dma_survey nmArg orgArg addr em ct s db = ((none, none, none), db)) ∧
    (∀ row ∈ (submit_dma_survey nmArg orgArg addr em ct s db).2.rows,
      row ∉ db.rows →
      row.address = addr.getD "" ∧ row.email = em.getD "" ∧
      row.contact_number = ct.getD "" ∧ some row.name = nmArg) := by
  unfold submit_dma_survey
  match nmArg, orgArg with
  | none, _ =>
    exact ⟨fun _ => rfl, fun row hrow hnew => absurd hrow hnew⟩
  | some n, none =>
    exact ⟨fun h => Option.noConfusion h,
      fun row hrow hnew => absurd hrow hnew⟩
  | some n, some o =>
    dsimp only
    refine ⟨fun h => Option.noConfusion h, ?_⟩
    split
    · intro row hrow hnew
      rcases List.mem_cons.mp hrow with h | h
      · subst h
        exact ⟨rfl, rfl, rfl, rfl⟩
      · exact absurd h hnew
    · intro row hrow hnew
      exact absurd hrow hnew

/-- Witness for C9: the absent-name insert fails with no row. -/
theorem C9_optional_fields_witness :
    submit_dma_survey none (some "W") (some "addr") none none
      ⟨2, 2, 2, 2, 2⟩ db0 = ((none, none, none), db0) :=
  (C9_optional_fields none (some "W") (some "addr") none none
    ⟨2, 2, 2, 2, 2⟩ db0).1 rfl

/-- An unreachable store, on which every analytics query raises. -/
def dbDown : DB :=
  { reachable := false, tableExists := true, rows := [], nextId := 1,
    clock := 0 }

/-- C10 counterexample: the failure default is distinguishable from the
empty-store result beyond `question_averages` — on failure `min_score`
and `max_score` are 0 while the empty store reports them as NULL. -/
theorem C10_failure_vs_empty_counterexample :
    get_dma_survey_analytics dbDown = analyticsFailure ∧
    analyticsFailure.min_score = some 0 ∧
    analyticsFailure.max_score = some 0 ∧
    (get_dma_survey_analytics db0).min_score = none ∧
    (get_dma_survey_analytics dbDown).min_score ≠
      (get_dma_survey_analytics db0).min_score := by
  refine ⟨rfl, rfl, rfl, rfl, ?_⟩
  intro h
  exact Option.noConfusion (rfl.trans h)

/-- C10 amended: a failed analytics read never propagates the error and
returns the fixed default (count 0, zero statistics, empty
question_averages, empty distribution, empty response list); it agrees
with the empty-store result on the count, average, distribution and
response list but differs on `question_averages` (empty instead of five
zero entries) and also on `min_score` and `max_score` (0 instead of
NULL). -/
theorem C10_failure_default (db dbe : DB)
    (hfail : (db.reachable && db.tableExists) = false)
    (hempty : dbe.rows = [] ∧ dbe.reachable = true ∧ dbe.tableExists = true) :
    get_dma_survey_analytics db = analyticsFailure ∧
    (get_dma_survey_analytics db).total_responses =
      (get_dma_survey_analytics dbe).total_responses ∧
    (get_dma_survey_analytics db).avg_score =
      (get_dma_survey_analytics dbe).avg_score ∧
    (get_dma_survey_analytics db).maturity_distribution =
      (get_dma_survey_analytics dbe).maturity_distribution ∧
    (get_dma_survey_analytics db).recent_responses =
      (get_dma_survey_analytics dbe).recent_responses ∧
    (get_dma_survey_analytics db).question_averages ≠
      (get_dma_survey_analytics dbe).question_averages ∧
    (get_dma_survey_analytics db).min_score ≠
      (get_dma_survey_analytics dbe).min_score ∧
    (get_dma_survey_analytics db).max_score ≠
      (get_dma_survey_analytics dbe).max_score := by
  have hdb : get_dma_survey_analytics db = analyticsFailure := by
    unfold get_dma_survey_analytics
    rw [hfail]
    rfl
  have hdbe := analytics_empty_eval dbe hempty
  rw [hdb, hdbe]
  refine ⟨rfl, rfl, rfl, rfl, rfl, ?_, ?_, ?_⟩
  · intro h
    exact List.noConfusion (rfl.trans h)
  · intro h
    exact Option.noConfusion (rfl.trans h)
  · intro h
    exact Option.noConfusion (rfl.trans h)

/-- Witness for C10 on the unreachable store against the empty store. -/
theorem C10_failure_default_witness :
    ((dbDown.reachable && dbDown.tableExists) = false ∧
     (db0.rows = [] ∧ db0.reachable = true ∧ db0.tableExists = true)) ∧
    (get_dma_survey_analytics dbDown = analyticsFailure ∧
     (get_dma_survey_analytics dbDown).total_responses =
       (get_dma_survey_analytics db0).total_responses ∧
     (get_dma_survey_analytics dbDown).avg_score =
       (get_dma_survey_analytics db0).avg_score ∧
     (get_dma_survey_analytics dbDown).maturity_distribution =
       (get_dma_survey_analytics db0).maturity_distribution ∧
     (get_dma_survey_analytics dbDown).recent_responses =
       (get_dma_survey_analytics db0).recent_responses ∧
     (get_dma_survey_analytics dbDown).question_averages ≠
       (get_dma_survey_analytics db0).question_averages ∧
     (get_dma_survey_analytics dbDown).min_score ≠
       (get_dma_survey_analytics db0).min_score ∧
     (get_dma_survey_analytics dbDown).max_score ≠
       (get_dma_survey_analytics db0).max_score) :=
  ⟨⟨by decide, by decide⟩,
   C10_failure_default dbDown db0 (by decide) (by decide)⟩

/-- Membership in the level distribution: exactly the levels present,
each paired with its group count. -/
theorem mem_maturityDistribution (rows : List Row) (l : String) (c : Nat) :
    (l, c) ∈ maturityDistribution rows ↔
      l ∈ rowLevels rows ∧ c = levelCount rows l := by
  unfold maturityDistribution
  rw [List.mem_insertionSort, List.mem_map]
  constructor
  · rintro ⟨a, ha, hfa⟩
    obtain ⟨ha1, ha2⟩ : a = l ∧ levelCount rows a = c := by
      simpa [Prod.ext_iff] using hfa
    subst ha1
    exact ⟨List.mem_dedup.mp ha, ha2.symm⟩
  · rintro ⟨hl, rfl⟩
    exact ⟨l, List.mem_dedup.mpr hl, rfl⟩

/-- A level that occurs among the rows has a positive group count. -/
theorem levelCount_pos (rows : List Row) (l : String)
    (hl : l ∈ rowLevels rows) : 0 < levelCount rows l := by
  rcases List.mem_map.mp hl with ⟨r, hr, hrl⟩
  unfold levelCount
  exact List.length_pos_of_mem
    (List.mem_filter.mpr ⟨hr, by simp [hrl]⟩)

/-- The level distribution names each distinct level at most once. -/
theorem maturityDistribution_fst_nodup (rows : List Row) :
    ((maturityDistribution rows).map Prod.fst).Nodup := by
  unfold maturityDistribution
  have hperm := (List.perm_insertionSort countDescRel
    ((rowLevels rows).dedup.map (fun l => (l, levelCount rows l)))).map Prod.fst
  refine hperm.nodup_iff.mpr ?_
  have hid : (((rowLevels rows).dedup.map
      (fun l => (l, levelCount rows l))).map Prod.fst) =
      (rowLevels rows).dedup := by
    induction (rowLevels rows).dedup with
    | nil => rfl
    | cons x xs ih => simp only [List.map_cons, ih]
  rw [hid]
  exact List.nodup_dedup (rowLevels rows)

/-- C5: for every reachable store state, the level distribution returned
by the analytics read has one (level, count) entry per distinct
maturity_level actually present among the rows (none for absent levels),
the counts are the true group counts and are strictly positive, and the
list is ordered by count descending. -/
theorem C5_level_distribution (db : DB)
    (h : db.reachable = true ∧ db.tableExists = true) :
    (∀ l : String,
      (∃ c, (l, c) ∈ (get_dma_survey_analytics db).maturity_distribution) ↔
      (∃ r ∈ db.rows, r.maturity_level = l)) ∧
    List.Sorted countDescRel
      (get_dma_survey_analytics db).maturity_distribution ∧
    (∀ p ∈ (get_dma_survey_analytics db).maturity_distribution,
      0 < p.2 ∧ p.2 = levelCount db.rows p.1) ∧
    ((get_dma_survey_analytics db).maturity_distribution.map Prod.fst).Nodup := by
  obtain ⟨h1, h2⟩ := h
  have hd : (get_dma_survey_analytics db).maturity_distribution =
      maturityDistribution db.rows := by
    simp [get_dma_survey_analytics, h1, h2]
  rw [hd]
  refine ⟨?_, ?_, ?_, maturityDistribution_fst_nodup db.rows⟩
  · intro l
    constructor
    · rintro ⟨c, hc⟩
      have hm := (mem_maturityDistribution db.rows l c).mp hc
      exact List.mem_map.mp hm.1
    · intro hr
      exact ⟨levelCount db.rows l,
        (mem_maturityDistribution db.rows l _).mpr
          ⟨List.mem_map.mpr hr, rfl⟩⟩
  · exact List.sorted_insertionSort countDescRel _
  · rintro ⟨a, b⟩ hp
    have hm := (mem_maturityDistribution db.rows a b).mp hp
    exact ⟨hm.2 ▸ levelCount_pos db.rows a hm.1, hm.2⟩

/-- A concrete Beginner-level row for the witnesses. -/
def rowW1 : Row :=
  { survey_id := 1, name := "", organisation := "A", address := "",
    email := "", contact_number := "", q1 := 1, q2 := 1, q3 := 1,
    q4 := 1, q5 := 1, total_score := 5,
    maturity_level := "Beginner Level", created_at := 1 }

/-- A concrete Emerging-level row for the witnesses. -/
def rowW2 : Row :=
  { rowW1 with
    survey_id := 2
    organisation := "B"
    q5 := 2
    total_score := 6
    maturity_level := "Emerging Level"
    created_at := 2 }

/-- A concrete two-row store for the witnesses. -/
def dbW : DB :=
  { reachable := true, tableExists := true, rows := [rowW2, rowW1],
    nextId := 3, clock := 3 }

/-- Witness for C5 on the concrete two-row store. -/
theorem C5_level_distribution_witness :
    (dbW.reachable = true ∧ dbW.tableExists = true) ∧
    ((∀ l : String,
      (∃ c, (l, c) ∈ (get_dma_survey_analytics dbW).maturity_distribution) ↔
      (∃ r ∈ dbW.rows, r.maturity_level = l)) ∧
    List.Sorted countDescRel
      (get_dma_survey_analytics dbW).maturity_distribution ∧
    (∀ p ∈ (get_dma_survey_analytics dbW).maturity_distribution,
      0 < p.2 ∧ p.2 = levelCount dbW.rows p.1) ∧
    ((get_dma_survey_analytics dbW).maturity_distribution.map Prod.fst).Nodup) :=
  ⟨by decide, C5_level_distribution dbW (by decide)⟩

/-- Prepending a row newer than every existing row puts it at the head
of the newest-first listing. -/
theorem recentResponses_cons_newest (row : Row) (rows : List Row)
    (hnew : ∀ r ∈ rows, r.created_at < row.created_at) :
    recentResponses (row :: rows) = rowToEntry row :: recentResponses rows := by
  unfold recentResponses
  simp only [List.insertionSort]
  cases hsort : List.insertionSort newerRel rows with
  | nil => simp [List.orderedInsert]
  | cons b t =>
    have hb : b ∈ rows := by
      have hmem : b ∈ List.insertionSort newerRel rows := by
        rw [hsort]; exact List.mem_cons_self b t
      exact (List.mem_insertionSort newerRel).mp hmem
    have hle : newerRel row b := le_of_lt (hnew b hb)
    rw [List.orderedInsert_of_le newerRel t hle]
    rfl

/-- Evaluation of a successful insert: the returned triple and the new
store state. -/
theorem submit_success_db (nm org : String) (addr em ct : Option String)
    (s : Scores) (db : DB) (h1 : db.reachable = true)
    (h2 : db.tableExists = true) (h3 : scoresInRange s = true) :
    submit_dma_survey (some nm) (some org) addr em ct s db =
      ((some db.nextId, some (totalScore s),
        some (maturityLevel (totalScore s))),
       { db with
         rows :=
           { survey_id := db.nextId
             name := nm
             organisation := org
             address := addr.getD ""
             email := em.getD ""
             contact_number := ct.getD ""
             q1 := s.q1
             q2 := s.q2
             q3 := s.q3
             q4 := s.q4
             q5 := s.q5
             total_score := totalScore s
             maturity_level := maturityLevel (totalScore s)
             created_at := db.clock } :: db.rows
         nextId := db.nextId + 1
         clock := db.clock + 1 }) := by
  unfold submit_dma_survey
  simp [h1, h2, h3]

/-- C6 counterexample: the all-responses listing carries the `name`
column as well, so it is not exactly the claimed 4-tuple (organisation,
total_score, maturity_level, created_at): two one-row stores whose rows
differ only in `name` yield the same 4-tuple listing but different
outputs of the analytics read. -/
theorem C6_name_column_counterexample :
    listResponsesSpec [rowW1] = listResponsesSpec [{ rowW1 with name := "Alice" }] ∧
    (get_dma_survey_analytics
        { dbW with rows := [rowW1] }).recent_responses ≠
      (get_dma_survey_analytics
        { dbW with rows := [{ rowW1 with name := "Alice" }] }).recent_responses ∧
    (get_dma_survey_analytics
        { dbW with rows := [{ rowW1 with name := "Alice" }] }).recent_responses.map
      (fun p => p.name) = ["Alice"] := by
  decide

/-- C6 amended: the listing returns the 5-tuple
(name, organisation, total_score, maturity_level, created_at) of every
row, newest first by created_at; immediately after a successful insert
the new row appears first, with total_score and maturity_level equal to
the scoring computation on the same five ratings. -/
theorem C6_list_responses (nm org : String) (addr em ct : Option String)
    (s : Scores) (db : DB) (h1 : db.reachable = true)
    (h2 : db.tableExists = true) (h3 : scoresInRange s = true)
    (hclock : ∀ r ∈ db.rows, r.created_at < db.clock) :
    List.Sorted entryNewerRel (get_dma_survey_analytics db).recent_responses ∧
    List.Perm (get_dma_survey_analytics db).recent_responses
      (db.rows.map rowToEntry) ∧
    (get_dma_survey_analytics
        (submit_dma_survey (some nm) (some org) addr em ct s db).2).recent_responses =
      { name := nm, organisation := org, total_score := totalScore s,
        maturity_level := maturityLevel (totalScore s),
        created_at := db.clock } ::
        (get_dma_survey_analytics db).recent_responses := by
  have hra : (get_dma_survey_analytics db).recent_responses =
      recentResponses db.rows := by
    simp [get_dma_survey_analytics, h1, h2]
  refine ⟨?_, ?_, ?_⟩
  · rw [hra]
    unfold recentResponses
    refine List.pairwise_map.mpr ?_
    exact (List.sorted_insertionSort newerRel db.rows).imp (fun h => h)
  · rw [hra]
    unfold recentResponses
    exact (List.perm_insertionSort newerRel db.rows).map rowToEntry
  · rw [submit_success_db nm org addr em ct s db h1 h2 h3]
    have hra2 : (get_dma_survey_analytics
        ({ db with
           rows :=
             { survey_id := db.nextId
               name := nm
               organisation := org
               address := addr.getD ""
               email := em.getD ""
               contact_number := ct.getD ""
               q1 := s.q1
               q2 := s.q2
               q3 := s.q3
               q4 := s.q4
               q5 := s.q5
               total_score := totalScore s
               maturity_level := maturityLevel (totalScore s)
               created_at := db.clock } :: db.rows
           nextId := db.nextId + 1
           clock := db.clock + 1 } : DB)).recent_responses =
      recentResponses
        ({ survey_id := db.nextId
           name := nm
           organisation := org
           address := addr.getD ""
           email := em.getD ""
           contact_number := ct.getD ""
           q1 := s.q1
           q2 := s.q2
           q3 := s.q3
           q4 := s.q4
           q5 := s.q5
           total_score := totalScore s
           maturity_level := maturityLevel (totalScore s)
           created_at := db.clock } :: db.rows) := by
      simp [get_dma_survey_analytics, h1, h2]
    rw [hra2, hra,
      recentResponses_cons_newest _ db.rows (by exact hclock)]
    rfl

/-- Witness for C6: a fresh insert into the two-row concrete store. -/
theorem C6_list_responses_witness :
    (dbW.reachable = true ∧ dbW.tableExists = true ∧
     scoresInRange ⟨4, 4, 4, 4, 4⟩ = true ∧
     (∀ r ∈ dbW.rows, r.created_at < dbW.clock)) ∧
    (List.Sorted entryNewerRel (get_dma_survey_analytics dbW).recent_responses ∧
     List.Perm (get_dma_survey_analytics dbW).recent_responses
       (dbW.rows.map rowToEntry) ∧
     (get_dma_survey_analytics
        (submit_dma_survey (some "N") (some "C") none none none
          ⟨4, 4, 4, 4, 4⟩ dbW).2).recent_responses =
      { name := "N", organisation := "C",
        total_score := totalScore ⟨4, 4, 4, 4, 4⟩,
        maturity_level := maturityLevel (totalScore ⟨4, 4, 4, 4, 4⟩),
        created_at := dbW.clock } ::
        (get_dma_survey_analytics dbW).recent_responses) :=
  ⟨⟨by decide, by decide, by decide, by decide⟩,
   C6_list_responses "N" "C" none none none ⟨4, 4, 4, 4, 4⟩ dbW
     (by decide) (by decide) (by decide) (by decide)⟩

end DMASurvey
